import Mathlib

/-!
Shallow embedding of the replanning supervisor implemented in
demos/lqrrt_ros/nodes/lqrrt_node.py (class LQRRT_Node).

Conventions used throughout:
* Machine floats are modelled as real numbers; occupancy-grid cell values
  (integers in the ROS message) are modelled as integers.
* A 6-dimensional state vector x = [x, y, heading, vx, vy, yawrate] is the
  structure SVec; a 3-dimensional effort vector is the triple EVec.
* Fallible code (Python exceptions: attribute access on None, IndexError
  outside the caught range, the ValueError branches) is modelled with Option.
* numpy integer array indexing is modelled faithfully: an index i into an
  axis of length n wraps to i + n when -n <= i < 0 and raises IndexError
  (modelled as none) only when i < -n or i >= n.
* External collaborators (the per-behavior lqRRT planners, scipy interp1d,
  cv2 dilate, the rotation simulation, rospy clocks) are parameters of the
  model, collected in the Oracle structure; the behaviors module (params,
  car/boat/escape, gen_ss) ships outside this tree, so its functions and
  numeric constants are likewise parameters (Params / Oracle fields).
-/

set_option maxHeartbeats 1000000

namespace LqrrtNode

/-- A 6-dimensional state vector [x, y, heading, vx, vy, yawrate]. -/
structure SVec where
  px : ℝ
  py : ℝ
  th : ℝ
  vx : ℝ
  vy : ℝ
  om : ℝ

/-- A 3-dimensional effort vector (fx, fy, torque). -/
abbrev EVec := ℝ × ℝ × ℝ

/-- numpy arctan2: the angle of the point (x, y), in (-pi, pi]. -/
noncomputable def arctan2 (y x : ℝ) : ℝ := Complex.arg ⟨x, y⟩

/-- LQRRT_Node.angle_diff: c, s, cg, sg are the cosines/sines of the two
angles and the difference is recovered with arctan2. -/
noncomputable def angle_diff (agoal a : ℝ) : ℝ :=
  arctan2 (Real.sin agoal * Real.cos a - Real.cos agoal * Real.sin a)
          (Real.cos agoal * Real.cos a + Real.sin agoal * Real.sin a)

/-- npl.norm of a planar vector. -/
noncomputable def norm2 (a b : ℝ) : ℝ := Real.sqrt (a ^ 2 + b ^ 2)

/-- np.clip for scalars: values below lo go to lo, above hi go to hi
(when lo > hi numpy returns hi, as min (max v lo) hi does). -/
noncomputable def clipR (v lo hi : ℝ) : ℝ := min (max v lo) hi

/-! ### Occupancy grid and the feasibility oracle (LQRRT_Node.is_feasible) -/

/-- The stored occupancy grid: cell data (row-major), world origin and
cells-per-meter (1 / resolution), as kept by ogrid_cb. -/
structure OGrid where
  data : List (List ℤ)
  ox : ℝ
  oy : ℝ
  cpm : ℝ

/-- np.float -> np.int64 conversion (astype): truncation toward zero. -/
noncomputable def truncZ (r : ℝ) : ℤ := if r < 0 then ⌈r⌉ else ⌊r⌋

/-- numpy integer indexing into one axis of length n: indices in [0, n) are
used as-is, indices in [-n, 0) wrap to the end, anything else raises
IndexError (none). -/
def npIdx (n : ℕ) (i : ℤ) : Option ℕ :=
  if 0 ≤ i ∧ i < (n : ℤ) then some i.toNat
  else if -(n : ℤ) ≤ i ∧ i < 0 then some (i + n).toNat
  else none

/-- numpy lookup grid[row, col] with wrap-around on both axes. -/
def npLookup (g : List (List ℤ)) (row col : ℤ) : Option ℤ := do
  let r ← npIdx g.length row
  let rw ← g.get? r
  let c ← npIdx rw.length col
  rw.get? c

/-- The vectorized lookup self.ogrid[indicies[:, 1], indicies[:, 0]]:
all pixels are read, and a single IndexError (none) aborts the whole read,
as the try/except in is_feasible does. Pairs are (column, row). -/
def lookupAll (g : List (List ℤ)) : List (ℤ × ℤ) → Option (List ℤ)
  | [] => some []
  | p :: rest =>
    match npLookup g p.2 p.1, lookupAll g rest with
    | some v, some vs => some (v :: vs)
    | _, _ => none

/-- Vehicle footprint points in the world frame:
x[:2] + R.dot(params.vps).T with R the rotation by the heading x[2]. -/
noncomputable def footprint (vps : List (ℝ × ℝ)) (x : SVec) : List (ℝ × ℝ) :=
  vps.map fun v =>
    (x.px + Real.cos x.th * v.1 - Real.sin x.th * v.2,
     x.py + Real.sin x.th * v.1 + Real.cos x.th * v.2)

/-- World point to pixel indices: (cpm * (point - origin)).astype(int64),
returned as (column, row). -/
noncomputable def pixelOf (G : OGrid) (p : ℝ × ℝ) : ℤ × ℤ :=
  (truncZ (G.cpm * (p.1 - G.ox)), truncZ (G.cpm * (p.2 - G.oy)))

/-- Pixel indices of a list of world points. -/
noncomputable def pixels (G : OGrid) (pts : List (ℝ × ℝ)) : List (ℤ × ℤ) :=
  pts.map (pixelOf G)

/-- LQRRT_Node.is_feasible(x, u): True when no ogrid has been received;
otherwise the footprint is rotated and translated, converted to pixel
indices and looked up (an IndexError gives False); feasible iff every
sampled value is strictly below the threshold. The effort u is unused,
exactly as in the source. -/
noncomputable def is_feasible (vps : List (ℝ × ℝ)) (thr : ℝ) (og : Option OGrid)
    (x : SVec) (u : EVec) : Prop :=
  match og with
  | none => True
  | some G =>
    match lookupAll G.data (pixels G (footprint vps x)) with
    | none => False
    | some vals => ∀ v ∈ vals, (v : ℝ) < thr

/-! ### Occupancy images and boundary analysis (LQRRT_Node.boundary_analysis)

The occupancy image handed to boundary_analysis is a uint8 matrix whose
occupied pixels have value 255.  cv2.floodFill with default 4-connectivity
and zero tolerance recolors the connected component of pixels whose value
equals the seed pixel's value. -/

/-- An occupancy image: a matrix of uint8 values. -/
abbrev Image := List (List ℕ)

/-- Pixel read at point (x, y) = (column, row); none when out of bounds. -/
def getPx (img : Image) (x y : ℤ) : Option ℕ :=
  if 0 ≤ x ∧ 0 ≤ y then (img.get? y.toNat).bind fun row => row.get? x.toNat
  else none

/-- The four 4-connected neighbors of a pixel. -/
def nbrsOf (p : ℤ × ℤ) : List (ℤ × ℤ) :=
  [(p.1 + 1, p.2), (p.1 - 1, p.2), (p.1, p.2 + 1), (p.1, p.2 - 1)]

/-- Write a pixel (no-op out of bounds). -/
def setPx (img : Image) (x y : ℤ) (nv : ℕ) : Image :=
  if 0 ≤ x ∧ 0 ≤ y then img.set y.toNat (((img.getD y.toNat []).set x.toNat nv))
  else img

/-- Total number of pixels, used to bound the flood work list. -/
def pixCount (img : Image) : ℕ := (img.map List.length).sum

/-- Depth-first flood: pop a pixel; if it still holds the original value v0,
recolor it to nv and push its neighbors.  Each pixel is pushed at most five
times, so the fuel (1 + 5 * pixCount) never runs out on claim-relevant
inputs; recoloring marks pixels visited. -/
def ffGo (v0 nv : ℕ) : ℕ → Image → List (ℤ × ℤ) → Image
  | 0, img, _ => img
  | _, img, [] => img
  | fuel + 1, img, p :: rest =>
    if getPx img p.1 p.2 = some v0 then
      ffGo v0 nv fuel (setPx img p.1 p.2 nv) (nbrsOf p ++ rest)
    else ffGo v0 nv fuel img rest

/-- cv2.floodFill(img, mask, (sx, sy), nv) with default flags: recolor the
4-connected component of pixels equal to the seed pixel's value.  An
out-of-bounds seed is a cv2 error; the model leaves the image unchanged
there (never exercised by the claims, which restrict to in-bounds seeds). -/
def floodFill (img : Image) (sx sy : ℤ) (nv : ℕ) : Image :=
  match getPx img sx sy with
  | none => img
  | some v0 => ffGo v0 nv (1 + 5 * pixCount img) img [(sx, sy)]

/-- v * np.equal(img, v): keep value v, zero everything else. -/
def threshEq (img : Image) (v : ℕ) : Image :=
  img.map fun row => row.map fun p => if p = v then v else 0

/-- The list [a, a+1, ..., b] (empty when b < a). -/
def intRange (a b : ℤ) : List ℤ :=
  (List.range (b + 1 - a).toNat).map fun i => a + (i : ℤ)

/-- Row-major width of the image (numpy arrays are rectangular). -/
def widthOf (img : Image) : ℕ := (img.head?.getD []).length

/-- The 3x3 neighborhood img[row-1:row+2, col-1:col+2] (the get_hood helper);
numpy slicing clips at the upper edges, which the none-dropping models. -/
def hoodVals (img : Image) (row col : ℤ) : List ℕ :=
  [row - 1, row, row + 1].flatMap fun r =>
    [col - 1, col, col + 1].filterMap fun c => getPx img c r

/-- LQRRT_Node.boundary_analysis(img, seed, goal): flood-fill from goal with
marker 96; if the seed is marked, return the empty list.  Otherwise threshold
to the goal region, flood from the seed with marker 69, collect the occupied
(255) pixels of the inner border (rows/cols 1 and dim-2, the top/bottom rows
further trimmed to columns 2..dim-3 as img[1, 2:-2] does), and keep those
whose 3x3 neighborhood in the seed-flood image contains both 69 and 0.
Points are (column, row) pairs as handed in; returned points are (row, col)
pairs exactly as np.argwhere/vstack produce them. -/
def boundary_analysis (img : Image) (seed goal : ℤ × ℤ) : List (ℤ × ℤ) :=
  let flood_goal := floodFill img goal.1 goal.2 96
  if getPx flood_goal seed.1 seed.2 = some 96 then []
  else
    let fgThresh := threshEq flood_goal 96
    let flood_seed := floodFill fgThresh seed.1 seed.2 69
    let fsThresh := threshEq flood_seed 69
    let rowMax : ℤ := (img.length : ℤ) - 2
    let colMax : ℤ := (widthOf img : ℤ) - 2
    let leftC := (intRange 1 rowMax).filterMap fun r =>
      if getPx img 1 r = some 255 then some (r, (1 : ℤ)) else none
    let rightC := (intRange 1 rowMax).filterMap fun r =>
      if getPx img colMax r = some 255 then some (r, colMax) else none
    let topC := (intRange 2 (colMax - 1)).filterMap fun c =>
      if getPx img c 1 = some 255 then some ((1 : ℤ), c) else none
    let botC := (intRange 2 (colMax - 1)).filterMap fun c =>
      if getPx img c rowMax = some 255 then some (rowMax, c) else none
    let cands := leftC ++ rightC ++ topC ++ botC
    cands.filter fun rc =>
      let hood := hoodVals fsThresh rc.1 rc.2
      hood.contains 69 && hood.contains 0

/-! ### The replanning supervisor (LQRRT_Node state, move_cb, tree_chain)

The per-behavior planners, the behaviors module (car/boat/escape with their
gen_ss) and the clocks are external collaborators; they enter the model as
the Oracle below.  The numeric constants of the params module are the
Params structure.  Timer-driven I/O (publishers, feedback) carries no
supervisor state and is dropped. -/

/-- The three planning behaviors. -/
inductive Behavior
  | car
  | boat
  | escape
deriving DecidableEq

/-- A goal bias: the escape branch returns the scalar 0, the boat/car
branches return a 6-component weighting list (Python is dynamically typed). -/
inductive GBias
  | scalar (b : ℝ)
  | vec (v : List ℝ)

/-- A sample-space rectangle ((xmin, xmax), (ymin, ymax)) in world frame. -/
abbrev SS := (ℝ × ℝ) × (ℝ × ℝ)

/-- The planner's tree, of which the supervisor only reads the size. -/
structure Tree where
  size : ℕ

/-- What a behavior's planner exposes after update_plan returns. -/
structure PlannerResult where
  clean : Bool
  x_seq : List SVec
  u_seq : List EVec
  tree : Tree
  T : ℝ
  reached : Bool
  get_state : ℝ → SVec
  get_effort : ℝ → EVec

/-- The numeric configuration constants read from the external params
module (only those the modelled code paths touch). -/
structure Params where
  basic_duration : ℝ
  dt : ℝ
  stuck_threshold : ℕ
  free_radius : ℝ
  fudge_factor : ℝ
  pointshoot_tol : ℝ
  velmax_pos_w : ℝ

/-- The mutable attributes of LQRRT_Node (those reset/written by the
modelled paths), plus the module-level boat.focus. -/
structure NodeState where
  state : Option SVec
  goal : Option SVec
  move_type : Option String
  behavior : Option Behavior
  enroute_behavior : Option Behavior
  goal_bias : Option GBias
  sample_space : Option SS
  guide : Option SVec
  stuck : Bool
  stuck_count : ℕ
  last_update_time : Option ℝ
  next_runtime : Option ℝ
  next_seed : Option SVec
  time_till_issue : Option ℝ
  preempted : Bool
  busy : Bool
  done : Bool
  x_seq : Option (List SVec)
  u_seq : Option (List EVec)
  tree : Option Tree
  get_ref : Option (ℝ → SVec)
  get_eff : Option (ℝ → EVec)
  ogrid : Option OGrid
  focus : Option (ℝ × ℝ × ℝ)

/-- The external collaborators: wall clocks at the three read points,
escape.gen_ss, the cv2-based occupancy analysis of select_exploration's
grid branch, each planner's update_plan together with the attributes it
exposes afterwards, the rotation-in-place simulation, and scipy interp1d. -/
structure Oracle where
  now1 : ℝ
  now2 : ℝ
  nowM : ℝ
  escGenSS : SVec → SVec → SS
  explGrid : NodeState → Option (GBias × SS × SVec)
  update : Behavior → Option SVec → Option SS → Option GBias → Option SVec →
    Option ℝ → PlannerResult
  rotationMove : SVec → ℝ → ℝ → ℝ → (List SVec × ℝ × Bool × List EVec)
  interpS : List SVec → ℝ → ℝ → SVec
  interpE : List EVec → ℝ → ℝ → EVec

/-- LQRRT_Node.reset: clears the plan, the behavior control block and the
planning control block (the planners are also unkilled, which is collaborator
state). -/
def reset (σ : NodeState) : NodeState :=
  { σ with goal := none, get_ref := none, get_eff := none, x_seq := none,
           u_seq := none, tree := none,
           move_type := none, behavior := none, enroute_behavior := none,
           goal_bias := none, sample_space := none, guide := none,
           stuck := false, stuck_count := 0,
           last_update_time := none, next_runtime := none, next_seed := none,
           time_till_issue := none, preempted := false }

/-- LQRRT_Node.set_goal (the publish and the planner set_goal calls are
collaborator I/O). -/
def set_goal (σ : NodeState) (g : SVec) : NodeState := { σ with goal := some g }

/-- LQRRT_Node.unpack_pose: a pose (x, y, yaw) becomes a state with zero
velocities. -/
def unpack_pose (p : ℝ × ℝ × ℝ) : SVec := ⟨p.1, p.2.1, p.2.2, 0, 0, 0⟩

open Classical

/-- LQRRT_Node.select_behavior: escape when stuck; else by move type and
the distance from next_seed to the goal.  The fall-through ValueError is
the none result; missing goal/next_seed (a Python TypeError) likewise. -/
noncomputable def selectBehavior (P : Params) (σ : NodeState) : Option Behavior :=
  if σ.stuck then some Behavior.escape
  else do
    let g ← σ.goal
    let seed ← σ.next_seed
    let dist := norm2 (g.px - seed.px) (g.py - seed.py)
    if σ.move_type = some ("drive") then
      some (if dist < P.free_radius then Behavior.boat else Behavior.car)
    else if σ.move_type = some ("skid") then some Behavior.boat
    else none

/-- LQRRT_Node.select_exploration.  The escape branch is modelled exactly:
gs = np.copy(goal); vec = goal[:2] - next_seed[:2]; when norm vec <
2*free_radius the first two components of gs become vec + 2*free_radius *
(vec / norm vec); returns (0, escape.gen_ss(next_seed, goal), gs).  The
grid branch is cv2 collaborator work (dilate, flood fills) and is the
explGrid oracle.  With no grid and a non-escape behavior the source
returns the local ss before ever assigning it, a NameError: none. -/
noncomputable def selectExploration (O : Oracle) (P : Params) (σ : NodeState) :
    Option (GBias × SS × SVec) :=
  if σ.behavior = some Behavior.escape then do
    let g ← σ.goal
    let seed ← σ.next_seed
    let vx := g.px - seed.px
    let vy := g.py - seed.py
    let dist := norm2 vx vy
    let gs :=
      if dist < 2 * P.free_radius then
        { g with px := vx + 2 * P.free_radius * (vx / dist),
                 py := vy + 2 * P.free_radius * (vy / dist) }
      else g
    some (GBias.scalar 0, O.escGenSS seed g, gs)
  else if σ.ogrid ≠ none ∧ σ.next_seed ≠ none then
    O.explGrid σ
  else
    none

/-- The stuck bookkeeping of tree_chain's clean-update branch, on the pair
(stuck, stuck_count): a qualifying update increments the counter, and once
the counter exceeds stuck_threshold the flag latches (counter back to 0);
any other update clears both. -/
noncomputable def stuckStep (thr : ℕ) (q : Prop) (s : Bool × ℕ) : Bool × ℕ :=
  if q then
    if s.2 + 1 > thr then (true, 0) else (false, s.2 + 1)
  else (false, 0)

/-- The qualifying condition of the stuck check: the tree is oddly small
(size at most stuck_threshold, or the horizon is a single timestep), the
goal was not reached, and the goal is farther than free_radius from the
current odometry state. -/
noncomputable def stuckQualifies (P : Params) (res : PlannerResult) (g st : SVec) : Prop :=
  (res.tree.size ≤ P.stuck_threshold ∨ res.T = P.dt) ∧ res.reached = false ∧
    norm2 (g.px - st.px) (g.py - st.py) > P.free_radius

/-- The decision phase of tree_chain (between acquiring busy and calling
update_plan): chooses seed, runtime, behavior and exploration parameters.
Python 2 compares None < float as True, so a cleared next_runtime passes
the first test of the no-issue branch.  Calling a None get_ref or falling
into a ValueError is the none result. -/
noncomputable def treeChainPrep (O : Oracle) (P : Params) (σ : NodeState) :
    Option NodeState :=
  match σ.time_till_issue with
  | none => do
    let σ1 ←
      if (match σ.next_runtime with
          | none => True
          | some r => r < P.basic_duration) ∧
         σ.last_update_time ≠ none ∧ σ.stuck = false then do
        let t ← σ.last_update_time
        let f ← σ.get_ref
        some { σ with next_runtime := some P.basic_duration,
                      next_seed := some (f (P.basic_duration + O.now1 - t)) }
      else if σ.stuck = true then some { σ with next_runtime := none }
      else some σ
    let b ← selectBehavior P σ1
    let σ2 := { σ1 with behavior := some b }
    let e ← selectExploration O P σ2
    some { σ2 with goal_bias := some e.1, sample_space := some e.2.1,
                   guide := some e.2.2 }
  | some τ =>
    if τ > 2 * P.basic_duration then do
      let t ← σ.last_update_time
      let f ← σ.get_ref
      let σ1 := { σ with next_runtime := some P.basic_duration,
                         next_seed := some (f (P.basic_duration + O.now1 - t)) }
      let b ← selectBehavior P σ1
      let σ2 := { σ1 with behavior := some b }
      let e ← selectExploration O P σ2
      some { σ2 with goal_bias := some e.1, sample_space := some e.2.1,
                     guide := some e.2.2 }
    else do
      let t ← σ.last_update_time
      let f ← σ.get_ref
      let g ← σ.goal
      let seed := f (τ / 2 + O.now1 - t)
      some { σ with next_runtime := some (τ / 2), next_seed := some seed,
                    behavior := some Behavior.escape,
                    goal_bias := some (GBias.scalar 0),
                    sample_space := some (O.escGenSS seed g),
                    guide := some g }

/-- The clean-update commit of tree_chain: run the stuck bookkeeping, cash
in the new plan, stamp the update time, shrink the runtime by fudge_factor
when it exceeds basic_duration, and reseed at the (new) reference. -/
noncomputable def treeChainCommit (O : Oracle) (P : Params) (σ : NodeState)
    (res : PlannerResult) : Option NodeState := do
  let g ← σ.goal
  let st ← σ.state
  let s2 := stuckStep P.stuck_threshold (stuckQualifies P res g st)
    (σ.stuck, σ.stuck_count)
  let rt := if res.T > P.basic_duration then res.T * P.fudge_factor else res.T
  some { σ with stuck := s2.1, stuck_count := s2.2,
                x_seq := some res.x_seq, u_seq := some res.u_seq,
                tree := some res.tree,
                last_update_time := some O.now2,
                get_ref := some res.get_state, get_eff := some res.get_effort,
                next_runtime := some rt,
                next_seed := some (res.get_state rt),
                enroute_behavior := σ.behavior, time_till_issue := none }

/-- LQRRT_Node.tree_chain.  When busy, the Python function returns None at
once: (σ, none).  Otherwise busy is acquired, the decision phase runs,
update_plan is invoked, a clean result is committed while a killed update
leaves the committed plan alone, busy is released and clean_update is
returned.  An uncaught exception inside is the outer none. -/
noncomputable def treeChain (O : Oracle) (P : Params) (σ : NodeState) :
    Option (NodeState × Option Bool) :=
  if σ.busy then some (σ, none)
  else do
    let σ1 ← treeChainPrep O P { σ with busy := true }
    let b ← σ1.behavior
    let res := O.update b σ1.next_seed σ1.sample_space σ1.goal_bias σ1.guide
      σ1.next_runtime
    let σ2 ← if res.clean then treeChainCommit O P σ1 res else some σ1
    some ({ σ2 with busy := false }, some res.clean)

/-- Outcome of a move_cb call: an aborted action result with its failure
code, immediate success (hold), or entry into the chaining loop. -/
inductive MoveRes
  | aborted (code : String)
  | succeeded
  | proceeding
deriving DecidableEq

/-- A Move action request after unpacking. -/
structure MoveMsg where
  goalPose : ℝ × ℝ × ℝ
  move_type : String
  focus : ℝ × ℝ × ℝ

/-- LQRRT_Node.move_cb up to the chaining loop.  Precondition failures
abort with a failure code; hold succeeds at once; drive/skid prepare the
first seed/runtime (including the rotation pre-move, whose simulation and
interpolants are oracle work) and then enter the loop, summarized as
MoveRes.proceeding with the state at loop entry.  The rotation tuple r is
(x_seq_rot, T_rot, success, u_seq_rot). -/
noncomputable def moveCb (O : Oracle) (P : Params) (σ0 : NodeState)
    (msg : MoveMsg) : Option (MoveRes × NodeState) :=
  let σ := { σ0 with done := false }
  match σ.state with
  | none => some (MoveRes.aborted ("odom"), { σ with done := true })
  | some st =>
    let σ := set_goal (reset σ) (unpack_pose msg.goalPose)
    if msg.move_type ∈ ["hold", "drive", "skid", "circle"] then do
      let σ := { σ with move_type := some msg.move_type }
      let σ ←
        if msg.move_type = "skid" then
          if msg.focus.2.2 = 0 then some { σ with focus := none }
          else do
            let g ← σ.goal
            let fv1 := msg.focus.1 - g.px
            let fv2 := msg.focus.2.1 - g.py
            some (set_goal { σ with focus := some (msg.focus.1, msg.focus.2.1, 0) }
                    { g with th := arctan2 fv2 fv1 })
        else if msg.move_type = "circle" then some { σ with focus := some msg.focus }
        else some { σ with focus := none }
      if msg.move_type = "hold" then
        let σ := set_goal σ st
        some (MoveRes.succeeded,
          { σ with last_update_time := some O.nowM,
                   get_ref := some (fun _ => st),
                   get_eff := some (fun _ => ((0 : ℝ), (0 : ℝ), (0 : ℝ))),
                   done := true })
      else if msg.move_type = "circle" then
        some (MoveRes.aborted ("patience"), { σ with done := true })
      else if msg.move_type = "drive" then do
        let g ← σ.goal
        let pex := g.px - st.px
        let pey := g.py - st.py
        let hg := arctan2 pey pex
        if |angle_diff hg st.th| > P.pointshoot_tol ∧ norm2 pex pey > P.free_radius then do
          let dtr := clipR P.dt (1 / 1000000) (1 / 100)
          let r := O.rotationMove st hg P.pointshoot_tol dtr
          let σ := if r.2.2.1 = false then { σ with move_type := some ("skid") } else σ
          let σ := { σ with last_update_time := some O.nowM }
          let σ := if r.1 ≠ [] then
              { σ with get_ref := some (O.interpS r.1 dtr),
                       get_eff := some (O.interpE r.2.2.2 dtr) }
            else σ
          let xl ← r.1.getLast?
          let nr := clipR r.2.1 P.basic_duration (2 * Real.pi / P.velmax_pos_w)
          some (MoveRes.proceeding,
            { σ with next_runtime := some nr, next_seed := some xl })
        else
          some (MoveRes.proceeding,
            { σ with next_runtime := some P.basic_duration, next_seed := some st })
      else
        some (MoveRes.proceeding,
          { σ with next_runtime := some P.basic_duration, next_seed := some st })
    else
      some (MoveRes.aborted ("move_type"), { σ with done := true })

/-- The guide-point property the specification ascribes to the escape
branch of select_exploration: the guide lies on the ray from the seed
through the goal, at distance at least d from the seed. -/
noncomputable def onSeedGoalRay (seed goal guide : SVec) (d : ℝ) : Prop :=
  ∃ t : ℝ, 0 ≤ t ∧ guide.px = seed.px + t * (goal.px - seed.px) ∧
    guide.py = seed.py + t * (goal.py - seed.py) ∧
    norm2 (guide.px - seed.px) (guide.py - seed.py) ≥ d

/-! ### Concrete instances used by witnesses and counterexamples -/

/-- The zero state. -/
noncomputable def sv0 : SVec := ⟨0, 0, 0, 0, 0, 0⟩

/-- A goal far from the origin state. -/
noncomputable def sv9 : SVec := ⟨9, 0, 0, 0, 0, 0⟩

/-- A seed away from the world origin. -/
noncomputable def sv10 : SVec := ⟨10, 0, 0, 0, 0, 0⟩

/-- A goal half a meter beyond sv10. -/
noncomputable def svG6 : SVec := ⟨21 / 2, 0, 0, 0, 0, 0⟩

/-- A trivial oracle whose planner is killed (clean = false). -/
noncomputable def O0 : Oracle :=
  { now1 := 0, now2 := 0, nowM := 0,
    escGenSS := fun _ _ => ((0, 0), (0, 0)),
    explGrid := fun _ => none,
    update := fun _ _ _ _ _ _ =>
      { clean := false, x_seq := [], u_seq := [], tree := ⟨0⟩, T := 0,
        reached := false, get_state := fun _ => sv0, get_effort := fun _ => (0, 0, 0) },
    rotationMove := fun _ _ _ _ => ([], 0, false, []),
    interpS := fun _ _ _ => sv0,
    interpE := fun _ _ _ => (0, 0, 0) }

/-- The planner result of the O5 oracle: a clean update with a one-node
tree, horizon 1, goal not reached. -/
noncomputable def res5 : PlannerResult :=
  { clean := true, x_seq := [], u_seq := [], tree := ⟨1⟩, T := 1,
    reached := false, get_state := fun _ => sv0, get_effort := fun _ => (0, 0, 0) }

/-- An oracle whose planner always returns res5. -/
noncomputable def O5 : Oracle := { O0 with update := fun _ _ _ _ _ _ => res5 }

/-- Concrete parameters: basic_duration 1, dt 1, stuck_threshold 1,
free_radius 1, fudge 1/2, pointshoot_tol 1, angular speed 1. -/
noncomputable def P0 : Params := ⟨1, 1, 1, 1, 1 / 2, 1, 1⟩

/-- A fully idle node state: nothing received, nothing planned. -/
noncomputable def σ0 : NodeState :=
  { state := none, goal := none, move_type := none, behavior := none,
    enroute_behavior := none, goal_bias := none, sample_space := none,
    guide := none, stuck := false, stuck_count := 0, last_update_time := none,
    next_runtime := none, next_seed := none, time_till_issue := none,
    preempted := false, busy := false, done := true, x_seq := none,
    u_seq := none, tree := none, get_ref := none, get_eff := none,
    ogrid := none, focus := none }

/-- A state in the immediate-issue configuration: an issue one second out,
a committed constant reference, a goal. -/
noncomputable def σ3 : NodeState :=
  { σ0 with time_till_issue := some 1, get_ref := some (fun _ => sv0),
            last_update_time := some 0, goal := some sv0 }

/-- σ3 after tree_chain acquires the busy flag. -/
noncomputable def σ3b : NodeState := { σ3 with busy := true }

/-- The immediate-issue decision phase applied to σ3. -/
noncomputable def σ3p : NodeState :=
  { σ3 with next_runtime := some ((1 : ℝ) / 2), next_seed := some sv0,
            behavior := some Behavior.escape,
            goal_bias := some (GBias.scalar 0),
            sample_space := some (O0.escGenSS sv0 sv0), guide := some sv0 }

/-- The immediate-issue decision phase applied to σ3b. -/
noncomputable def σ3bp : NodeState := { σ3p with busy := true }

/-- The immediate-issue configuration with odometry and a far goal, used
for the stuck-counter run. -/
noncomputable def σ5 : NodeState :=
  { σ0 with state := some sv0, goal := some sv9, time_till_issue := some 1,
            get_ref := some (fun _ => sv0), last_update_time := some 0 }

/-- The decision phase applied to σ5 with busy acquired. -/
noncomputable def σ5p : NodeState :=
  { σ5 with busy := true, next_runtime := some ((1 : ℝ) / 2),
            next_seed := some sv0, behavior := some Behavior.escape,
            goal_bias := some (GBias.scalar 0),
            sample_space := some (O5.escGenSS sv0 sv9), guide := some sv9 }

/-- An escape configuration whose seed sits at (10, 0) with the goal half
a meter further: the escape guide computation is exercised away from the
world origin. -/
noncomputable def σ6 : NodeState :=
  { σ0 with behavior := some Behavior.escape, goal := some svG6,
            next_seed := some sv10 }

/-- A node state with odometry and an old committed plan, about to receive
a Move request with a bogus move type. -/
noncomputable def σ2c : NodeState :=
  { σ0 with state := some sv0, goal := some sv0,
            get_ref := some (fun _ => sv0), move_type := some ("drive"),
            behavior := some Behavior.car }

/-- A Move request with an unsupported move type. -/
noncomputable def m2c : MoveMsg := ⟨(1, 2, 3), "fly", (0, 0, 0)⟩

/-- A busy node state. -/
noncomputable def σ7 : NodeState := { σ0 with busy := true }

/-- A one-row, two-column grid at the world origin with one meter cells:
cell (0,0) holds 10, cell (0,1) holds 0. -/
def G1 : OGrid := { data := [[10, 0]], ox := 0, oy := 0, cpm := 1 }

/-- A single footprint point at the vehicle origin. -/
noncomputable def vps1 : List (ℝ × ℝ) := [(0, 0)]

/-- A pose half a cell to the left of the grid: its pixel column index is
-1, which numpy wraps to the last column. -/
noncomputable def x1 : SVec := ⟨-(3 / 2), 1 / 2, 0, 0, 0, 0⟩

/-- A 7x7 occupancy image: a ring of occupied pixels around the center,
nowhere touching the image's inner border. -/
def img7 : Image :=
  [[0, 0, 0, 0, 0, 0, 0],
   [0, 0, 0, 0, 0, 0, 0],
   [0, 0, 255, 255, 255, 0, 0],
   [0, 0, 255, 0, 255, 0, 0],
   [0, 0, 255, 255, 255, 0, 0],
   [0, 0, 0, 0, 0, 0, 0],
   [0, 0, 0, 0, 0, 0, 0]]

/-- A 3x3 all-clear occupancy image. -/
def imgZ : Image := [[0, 0, 0], [0, 0, 0], [0, 0, 0]]

/-! ### Claim theorems -/

/-- C9: angle_diff is invariant under adding whole turns to either argument,
and its value always lies in (-pi, pi]. -/
theorem angle_diff_periodic_and_range (a b : ℝ) (k m : ℤ) :
    angle_diff (a + 2 * k * Real.pi) (b + 2 * m * Real.pi) = angle_diff a b ∧
    -Real.pi < angle_diff a b ∧ angle_diff a b ≤ Real.pi := by
  refine ⟨?_, ?_, ?_⟩
  · unfold angle_diff
    rw [show a + 2 * (k : ℝ) * Real.pi = a + (k : ℝ) * (2 * Real.pi) by ring,
        show b + 2 * (m : ℝ) * Real.pi = b + (m : ℝ) * (2 * Real.pi) by ring,
        Real.cos_add_int_mul_two_pi, Real.sin_add_int_mul_two_pi,
        Real.cos_add_int_mul_two_pi, Real.sin_add_int_mul_two_pi]
  · exact Complex.neg_pi_lt_arg _
  · exact Complex.arg_le_pi _

/-- C10: the effort argument of is_feasible never influences the verdict:
the body reads only the state and the grid. -/
theorem is_feasible_effort_independent (vps : List (ℝ × ℝ)) (thr : ℝ)
    (og : Option OGrid) (x : SVec) (u1 u2 : EVec) :
    is_feasible vps thr og x u1 ↔ is_feasible vps thr og x u2 := Iff.rfl

/-- C7: a tree_chain call made while busy returns None immediately with the
state unchanged, every field included. -/
theorem tree_chain_busy_guard (O : Oracle) (P : Params) (σ : NodeState)
    (h : σ.busy = true) : treeChain O P σ = some (σ, none) := by
  simp [treeChain, h]

/-- Witness for C7 at the concrete busy state σ7. -/
theorem tree_chain_busy_guard_witness :
    σ7.busy = true ∧ treeChain O0 P0 σ7 = some (σ7, none) :=
  ⟨rfl, tree_chain_busy_guard O0 P0 σ7 rfl⟩

/-- C8 (amended): boundary_analysis returns the empty list whenever the
flood-fill from the goal pixel marks the seed pixel; hence a non-empty
result means the flood did not reach the seed.  The converse of the claim
fails: the list can also be empty when the flood does not reach the seed,
as the 7x7 ring counterexample shows. -/
theorem boundary_analysis_empty_of_flood (img : Image) (seed goal : ℤ × ℤ)
    (h : getPx (floodFill img goal.1 goal.2 96) seed.1 seed.2 = some 96) :
    boundary_analysis img seed goal = [] := by
  simp only [boundary_analysis, h, if_pos]

set_option maxRecDepth 100000 in
/-- Witness for C8 on the all-clear 3x3 image: the flood from (0,0) reaches
(2,2) and boundary_analysis is empty. -/
theorem boundary_analysis_empty_of_flood_witness :
    getPx (floodFill imgZ 0 0 96) 2 2 = some 96 ∧
    boundary_analysis imgZ (2, 2) (0, 0) = [] :=
  ⟨by decide, boundary_analysis_empty_of_flood imgZ (2, 2) (0, 0) (by decide)⟩

set_option maxRecDepth 100000 in
/-- C8 counterexample: on the 7x7 ring image the flood-fill from the goal
(0,0) does not reach the enclosed seed (3,3) (the seed pixel keeps value 0),
yet boundary_analysis returns the empty list, because the separating ring
never touches the image's inner border.  This refutes the only-if direction
of the claim. -/
theorem boundary_analysis_cex :
    boundary_analysis img7 (3, 3) (0, 0) = [] ∧
    getPx (floodFill img7 0 0 96) 3 3 = some 0 := by
  exact ⟨by decide, by decide⟩

/-- Helper: the aborting vectorized lookup succeeds with all values
satisfying Q exactly when every pixel individually looks up to a value
satisfying Q. -/
theorem lookupAll_spec (g : List (List ℤ)) (Q : ℤ → Prop) :
    ∀ l : List (ℤ × ℤ),
      (∃ vs, lookupAll g l = some vs ∧ ∀ v ∈ vs, Q v) ↔
      ∀ p ∈ l, ∃ v, npLookup g p.2 p.1 = some v ∧ Q v := by
  intro l
  induction l with
  | nil => simp [lookupAll]
  | cons p rest ih =>
    constructor
    · rintro ⟨vs, hvs, hall⟩ q hq
      rcases List.mem_cons.mp hq with hq | hq
      · subst hq
        cases h1 : npLookup g q.2 q.1 with
        | none => rw [lookupAll, h1] at hvs; exact absurd hvs (by simp)
        | some v =>
          refine ⟨v, rfl, ?_⟩
          rw [lookupAll, h1] at hvs
          cases h2 : lookupAll g rest with
          | none => rw [h2] at hvs; exact absurd hvs (by simp)
          | some ws =>
            rw [h2] at hvs
            simp only [Option.some.injEq] at hvs
            exact hall v (by rw [← hvs]; exact List.mem_cons_self v ws)
      · cases h1 : npLookup g p.2 p.1 with
        | none => rw [lookupAll, h1] at hvs; exact absurd hvs (by simp)
        | some v =>
          cases h2 : lookupAll g rest with
          | none => rw [lookupAll, h1, h2] at hvs; exact absurd hvs (by simp)
          | some ws =>
            refine (ih.mp ⟨ws, h2, fun w hw => ?_⟩) q hq
            rw [lookupAll, h1, h2] at hvs
            simp only [Option.some.injEq] at hvs
            exact hall w (by rw [← hvs]; exact List.mem_cons_of_mem v hw)
    · intro hall
      obtain ⟨v, hv, hQv⟩ := hall p (List.mem_cons_self p rest)
      obtain ⟨ws, hws, hQW⟩ := ih.mpr fun q hq => hall q (List.mem_cons_of_mem p hq)
      refine ⟨v :: ws, ?_, ?_⟩
      · rw [lookupAll, hv, hws]
      · intro w hw
        rcases List.mem_cons.mp hw with h | h
        · exact h ▸ hQv
        · exact hQW w h

/-- C1 (amended): with no grid, is_feasible holds.  With a grid it holds
iff every footprint pixel index is numpy-valid (within [-dim, dim) on each
axis, indices in [-dim, -1] wrapping to the far end) and the looked-up
value is strictly below the threshold; an axis index at or beyond the
axis length, or below its negation, raises IndexError and gives False
(third conjunct: such indices never resolve). -/
theorem is_feasible_characterization (vps : List (ℝ × ℝ)) (thr : ℝ) (G : OGrid)
    (x : SVec) (u : EVec) :
    is_feasible vps thr none x u ∧
    (is_feasible vps thr (some G) x u ↔
      ∀ p ∈ pixels G (footprint vps x),
        ∃ v, npLookup G.data p.2 p.1 = some v ∧ (v : ℝ) < thr) ∧
    (∀ (n : ℕ) (i : ℤ), ((n : ℤ) ≤ i ∨ i < -(n : ℤ)) → npIdx n i = none) := by
  refine ⟨trivial, ?_, ?_⟩
  · rw [show is_feasible vps thr (some G) x u =
        (match lookupAll G.data (pixels G (footprint vps x)) with
         | none => False
         | some vals => ∀ v ∈ vals, (v : ℝ) < thr) from rfl]
    rw [← lookupAll_spec G.data (fun v => (v : ℝ) < thr)]
    cases h : lookupAll G.data (pixels G (footprint vps x)) with
    | none => simp [h]
    | some vs => simp [h]
  · intro n i h
    simp only [npIdx]
    split_ifs with h1 h2
    · exfalso; omega
    · exfalso; omega
    · rfl

/-- Witness for C1 (amended), exercising the hypothesis of the third
conjunct: the index 5 into an axis of length 2 raises. -/
theorem is_feasible_characterization_witness :
    ((2 : ℤ) ≤ 5 ∨ (5 : ℤ) < -(2 : ℤ)) ∧ npIdx 2 5 = none :=
  ⟨Or.inl (by decide),
   (is_feasible_characterization vps1 5 G1 x1 (0, 0, 0)).2.2 2 5 (Or.inl (by decide))⟩

/-- C1 counterexample: at pose x1 the single footprint point lands at
pixel column -1, outside the grid's bounds [0, 2), yet is_feasible holds:
numpy wraps the negative index to the last column, whose value 0 is below
the threshold 5.  The claim demands False whenever an index is out of
bounds. -/
theorem is_feasible_oob_cex :
    pixels G1 (footprint vps1 x1) = [(-1, 0)] ∧
    ¬ (0 ≤ (-1 : ℤ)) ∧
    is_feasible vps1 5 (some G1) x1 (0, 0, 0) := by
  have hfoot : footprint vps1 x1 = [(-(3 / 2 : ℝ), (1 / 2 : ℝ))] := by
    simp [footprint, vps1, x1]
  have hc : truncZ (G1.cpm * (-(3 / 2 : ℝ) - G1.ox)) = -1 := by
    rw [show G1.cpm * (-(3 / 2 : ℝ) - G1.ox) = -(3 / 2 : ℝ) by norm_num [G1]]
    rw [truncZ, if_pos (by norm_num)]
    rw [Int.ceil_eq_iff] <;> norm_num
  have hr : truncZ (G1.cpm * ((1 / 2 : ℝ) - G1.oy)) = 0 := by
    rw [show G1.cpm * ((1 / 2 : ℝ) - G1.oy) = (1 / 2 : ℝ) by norm_num [G1]]
    rw [truncZ, if_neg (by norm_num)]
    rw [Int.floor_eq_iff] <;> norm_num
  have hpix : pixels G1 (footprint vps1 x1) = [(-1, 0)] := by
    rw [hfoot]
    simp only [pixels, List.map_cons, List.map_nil, pixelOf, hc, hr]
  refine ⟨hpix, by norm_num, ?_⟩
  rw [show is_feasible vps1 5 (some G1) x1 (0, 0, 0) =
      (match lookupAll G1.data (pixels G1 (footprint vps1 x1)) with
       | none => False
       | some vals => ∀ v ∈ vals, (v : ℝ) < 5) from rfl]
  rw [hpix, show lookupAll G1.data [((-1 : ℤ), (0 : ℤ))] = some [0] from by decide]
  intro v hv
  simp only [List.mem_singleton] at hv
  subst hv
  norm_num

/-- Helper: evaluation of the decision phase in the immediate-issue case. -/
theorem prep_immediate_spec (O : Oracle) (P : Params) (σ : NodeState)
    (τ : ℝ) (f : ℝ → SVec) (t : ℝ) (g : SVec)
    (hτ : σ.time_till_issue = some τ) (hle : τ ≤ 2 * P.basic_duration)
    (hf : σ.get_ref = some f) (ht : σ.last_update_time = some t)
    (hg : σ.goal = some g) :
    treeChainPrep O P σ =
      some { σ with next_runtime := some (τ / 2),
                    next_seed := some (f (τ / 2 + O.now1 - t)),
                    behavior := some Behavior.escape,
                    goal_bias := some (GBias.scalar 0),
                    sample_space := some (O.escGenSS (f (τ / 2 + O.now1 - t)) g),
                    guide := some g } := by
  simp only [treeChainPrep, hτ]
  rw [if_neg (not_lt.mpr hle)]
  rw [ht, hf, hg]
  rfl

/-- C3: a tree_chain decision phase entered with a pending issue not
farther out than twice basic_duration halves the runtime to the issue,
reseeds on the committed reference that far ahead, forces the escape
behavior, zeroes the goal bias, samples from escape.gen_ss(seed, goal)
and guides at the goal. -/
theorem tree_chain_immediate_issue (O : Oracle) (P : Params) (σ : NodeState)
    (τ : ℝ) (f : ℝ → SVec) (t : ℝ) (g : SVec)
    (hτ : σ.time_till_issue = some τ) (hle : τ ≤ 2 * P.basic_duration)
    (hf : σ.get_ref = some f) (ht : σ.last_update_time = some t)
    (hg : σ.goal = some g) :
    treeChainPrep O P σ =
      some { σ with next_runtime := some (τ / 2),
                    next_seed := some (f (τ / 2 + O.now1 - t)),
                    behavior := some Behavior.escape,
                    goal_bias := some (GBias.scalar 0),
                    sample_space := some (O.escGenSS (f (τ / 2 + O.now1 - t)) g),
                    guide := some g } :=
  prep_immediate_spec O P σ τ f t g hτ hle hf ht hg

/-- Witness for C3 at the concrete immediate-issue state σ3 (issue one
second out, basic_duration one second). -/
theorem tree_chain_immediate_issue_witness :
    (1 : ℝ) ≤ 2 * P0.basic_duration ∧ treeChainPrep O0 P0 σ3 = some σ3p := by
  have hle : (1 : ℝ) ≤ 2 * P0.basic_duration := by norm_num [P0]
  refine ⟨hle, ?_⟩
  have h := tree_chain_immediate_issue O0 P0 σ3 1 (fun _ => sv0) 0 sv0
    rfl hle rfl rfl rfl
  exact h

/-- Helper: the decision phase of tree_chain only writes next_runtime,
next_seed, behavior, goal_bias, sample_space and guide; every other field
of the supervisor state survives it unchanged. -/
theorem treeChainPrep_frame (O : Oracle) (P : Params) (σ σ' : NodeState)
    (h : treeChainPrep O P σ = some σ') :
    σ'.x_seq = σ.x_seq ∧ σ'.u_seq = σ.u_seq ∧ σ'.tree = σ.tree ∧
    σ'.get_ref = σ.get_ref ∧ σ'.get_eff = σ.get_eff ∧
    σ'.last_update_time = σ.last_update_time ∧ σ'.busy = σ.busy ∧
    σ'.goal = σ.goal ∧ σ'.state = σ.state ∧ σ'.stuck = σ.stuck ∧
    σ'.stuck_count = σ.stuck_count := by
  simp only [treeChainPrep, Option.bind_eq_bind'] at h
  split at h
  case h_1 =>
    split_ifs at h with hc1 hc2
    · cases hlut : σ.last_update_time with
      | none => rw [hlut, Option.none_bind'] at h; exact absurd h (by simp)
      | some t =>
        rw [hlut, Option.some_bind'] at h
        cases hgr : σ.get_ref with
        | none => rw [hgr, Option.none_bind'] at h; exact absurd h (by simp)
        | some f =>
          rw [hgr, Option.some_bind', Option.some_bind'] at h
          cases hsb : selectBehavior P _ with
          | none => rw [hsb, Option.none_bind'] at h; exact absurd h (by simp)
          | some b =>
            rw [hsb, Option.some_bind'] at h
            cases hse : selectExploration O P _ with
            | none => rw [hse, Option.none_bind'] at h; exact absurd h (by simp)
            | some e =>
              rw [hse, Option.some_bind', Option.some_inj] at h
              subst h
              simp [hlut, hgr]
    · rw [Option.some_bind'] at h
      cases hsb : selectBehavior P _ with
      | none => rw [hsb, Option.none_bind'] at h; exact absurd h (by simp)
      | some b =>
        rw [hsb, Option.some_bind'] at h
        cases hse : selectExploration O P _ with
        | none => rw [hse, Option.none_bind'] at h; exact absurd h (by simp)
        | some e =>
          rw [hse, Option.some_bind', Option.some_inj] at h
          subst h
          simp
    · rw [Option.some_bind'] at h
      cases hsb : selectBehavior P _ with
      | none => rw [hsb, Option.none_bind'] at h; exact absurd h (by simp)
      | some b =>
        rw [hsb, Option.some_bind'] at h
        cases hse : selectExploration O P _ with
        | none => rw [hse, Option.none_bind'] at h; exact absurd h (by simp)
        | some e =>
          rw [hse, Option.some_bind', Option.some_inj] at h
          subst h
          simp
  case h_2 τ htti =>
    split_ifs at h with hfar
    · cases hlut : σ.last_update_time with
      | none => rw [hlut, Option.none_bind'] at h; exact absurd h (by simp)
      | some t =>
        rw [hlut, Option.some_bind'] at h
        cases hgr : σ.get_ref with
        | none => rw [hgr, Option.none_bind'] at h; exact absurd h (by simp)
        | some f =>
          rw [hgr, Option.some_bind'] at h
          cases hsb : selectBehavior P _ with
          | none => rw [hsb, Option.none_bind'] at h; exact absurd h (by simp)
          | some b =>
            rw [hsb, Option.some_bind'] at h
            cases hse : selectExploration O P _ with
            | none => rw [hse, Option.none_bind'] at h; exact absurd h (by simp)
            | some e =>
              rw [hse, Option.some_bind', Option.some_inj] at h
              subst h
              simp [hlut, hgr]
    · cases hlut : σ.last_update_time with
      | none => rw [hlut, Option.none_bind'] at h; exact absurd h (by simp)
      | some t =>
        rw [hlut, Option.some_bind'] at h
        cases hgr : σ.get_ref with
        | none => rw [hgr, Option.none_bind'] at h; exact absurd h (by simp)
        | some f =>
          rw [hgr, Option.some_bind'] at h
          cases hgl : σ.goal with
          | none => rw [hgl, Option.none_bind'] at h; exact absurd h (by simp)
          | some g =>
            rw [hgl, Option.some_bind', Option.some_inj] at h
            subst h
            simp [hlut, hgr, hgl]

/-- C4: a tree_chain iteration whose update_plan is killed (clean = false)
returns false and leaves the committed segment untouched: x_seq, u_seq,
tree, get_ref, get_eff and last_update_time keep their prior values. -/
theorem tree_chain_killed_frame (O : Oracle) (P : Params) (σ σ' : NodeState)
    (b : Behavior) (hb : σ.busy = false)
    (hp : treeChainPrep O P { σ with busy := true } = some σ')
    (hbeh : σ'.behavior = some b)
    (hcl : (O.update b σ'.next_seed σ'.sample_space σ'.goal_bias σ'.guide
      σ'.next_runtime).clean = false) :
    treeChain O P σ = some ({ σ' with busy := false }, some false) ∧
    σ'.x_seq = σ.x_seq ∧ σ'.u_seq = σ.u_seq ∧ σ'.tree = σ.tree ∧
    σ'.get_ref = σ.get_ref ∧ σ'.get_eff = σ.get_eff ∧
    σ'.last_update_time = σ.last_update_time := by
  have hfr := treeChainPrep_frame O P _ _ hp
  constructor
  · simp only [treeChain, hb, Bool.false_eq_true, if_false, Option.bind_eq_bind']
    rw [hp, Option.some_bind', hbeh, Option.some_bind', hcl]
    simp [hbeh]
  · exact ⟨hfr.1, hfr.2.1, hfr.2.2.1, hfr.2.2.2.1, hfr.2.2.2.2.1, hfr.2.2.2.2.2.1⟩

/-- Witness for C4: from σ3 (busy free), the decision phase yields σ3bp and
the O0 planner is killed; the iteration returns false and the committed
fields are unchanged. -/
theorem tree_chain_killed_frame_witness :
    treeChain O0 P0 σ3 = some ({ σ3bp with busy := false }, some false) ∧
    σ3bp.x_seq = σ3.x_seq ∧ σ3bp.u_seq = σ3.u_seq ∧ σ3bp.tree = σ3.tree ∧
    σ3bp.get_ref = σ3.get_ref ∧ σ3bp.get_eff = σ3.get_eff ∧
    σ3bp.last_update_time = σ3.last_update_time := by
  have hprep : treeChainPrep O0 P0 σ3b = some σ3bp := by
    have h := prep_immediate_spec O0 P0 σ3b 1 (fun _ => sv0) 0 sv0
      rfl (by norm_num [P0]) rfl rfl rfl
    exact h
  exact tree_chain_killed_frame O0 P0 σ3 σ3bp Behavior.escape rfl hprep rfl rfl

/-- Helper: n consecutive qualifying updates from a cleared counter, with
n at most the threshold, leave stuck false with the counter at n. -/
theorem stuckStep_iterate_le (thr n : ℕ) (hn : n ≤ thr) :
    (fun s => stuckStep thr True s)^[n] (false, 0) = (false, n) := by
  induction n with
  | zero => simp
  | succ n ih =>
    rw [Function.iterate_succ_apply', ih (by omega)]
    rw [show stuckStep thr True (false, n) = (false, n + 1) by
      rw [stuckStep, if_pos trivial, if_neg (by omega)]]

/-- Helper: the latch fires on the (threshold + 1)-st consecutive
qualifying update, resetting the counter. -/
theorem stuckStep_latch (thr : ℕ) :
    (fun s => stuckStep thr True s)^[thr + 1] (false, 0) = (true, 0) := by
  rw [Function.iterate_succ_apply', stuckStep_iterate_le thr thr le_rfl]
  rw [stuckStep, if_pos trivial, if_pos (by omega)]

/-- Helper: a clean tree_chain iteration updates (stuck, stuck_count) by
exactly one stuckStep on the qualifying condition of the returned plan. -/
theorem tree_chain_clean_stuck_step (O : Oracle) (P : Params) (σ σ' : NodeState)
    (b : Behavior) (g st : SVec) (hb : σ.busy = false)
    (hp : treeChainPrep O P { σ with busy := true } = some σ')
    (hbeh : σ'.behavior = some b)
    (hcl : (O.update b σ'.next_seed σ'.sample_space σ'.goal_bias σ'.guide
      σ'.next_runtime).clean = true)
    (hg : σ'.goal = some g) (hst : σ'.state = some st) :
    (treeChain O P σ).map (fun r => (r.1.stuck, r.1.stuck_count, r.2)) =
      some ((stuckStep P.stuck_threshold
              (stuckQualifies P (O.update b σ'.next_seed σ'.sample_space
                σ'.goal_bias σ'.guide σ'.next_runtime) g st)
              (σ.stuck, σ.stuck_count)).1,
            (stuckStep P.stuck_threshold
              (stuckQualifies P (O.update b σ'.next_seed σ'.sample_space
                σ'.goal_bias σ'.guide σ'.next_runtime) g st)
              (σ.stuck, σ.stuck_count)).2,
            some true) := by
  have hfr := treeChainPrep_frame O P _ _ hp
  simp only [treeChain, hb, Bool.false_eq_true, if_false, Option.bind_eq_bind']
  rw [hp, Option.some_bind', hbeh, Option.some_bind', hcl]
  rw [if_pos rfl]
  simp only [treeChainCommit, Option.bind_eq_bind']
  rw [hg, Option.some_bind', hst, Option.some_bind', Option.some_bind']
  simp only [Option.map_some]
  rw [hfr.2.2.2.2.2.2.2.2.2.1, hfr.2.2.2.2.2.2.2.2.2.2]
  simp

/-- C5 (amended): a clean update meeting the oddly-small-tree condition
increments the stuck counter, the flag latching (with the counter reset to
0) only once the counter exceeds stuck_threshold, that is on the
(stuck_threshold + 1)-st consecutive qualifying update, not the
stuck_threshold-th; any non-qualifying update clears stuck and resets the
counter.  Conjuncts: (1) a non-qualifying update clears both; (2) n <=
threshold consecutive qualifying updates leave stuck false with counter n;
(3) the latch fires on update threshold + 1; (4) each clean tree_chain
iteration applies exactly one such step to (stuck, stuck_count). -/
theorem tree_chain_stuck_amended :
    (∀ (thr : ℕ) (s : Bool × ℕ), stuckStep thr False s = (false, 0)) ∧
    (∀ (thr n : ℕ), n ≤ thr →
      (fun s => stuckStep thr True s)^[n] (false, 0) = (false, n)) ∧
    (∀ thr : ℕ, (fun s => stuckStep thr True s)^[thr + 1] (false, 0) = (true, 0)) ∧
    (∀ (O : Oracle) (P : Params) (σ σ' : NodeState) (b : Behavior) (g st : SVec),
      σ.busy = false →
      treeChainPrep O P { σ with busy := true } = some σ' →
      σ'.behavior = some b →
      (O.update b σ'.next_seed σ'.sample_space σ'.goal_bias σ'.guide
        σ'.next_runtime).clean = true →
      σ'.goal = some g → σ'.state = some st →
      (treeChain O P σ).map (fun r => (r.1.stuck, r.1.stuck_count, r.2)) =
        some ((stuckStep P.stuck_threshold
                (stuckQualifies P (O.update b σ'.next_seed σ'.sample_space
                  σ'.goal_bias σ'.guide σ'.next_runtime) g st)
                (σ.stuck, σ.stuck_count)).1,
              (stuckStep P.stuck_threshold
                (stuckQualifies P (O.update b σ'.next_seed σ'.sample_space
                  σ'.goal_bias σ'.guide σ'.next_runtime) g st)
                (σ.stuck, σ.stuck_count)).2,
              some true)) := by
  refine ⟨?_, stuckStep_iterate_le, stuckStep_latch, ?_⟩
  · intro thr s
    simp [stuckStep]
  · intro O P σ σ' b g st hb hp hbeh hcl hg hst
    exact tree_chain_clean_stuck_step O P σ σ' b g st hb hp hbeh hcl hg hst

/-- Helper: the decision phase evaluated at the concrete stuck run. -/
theorem prep_eval5 : treeChainPrep O5 P0 { σ5 with busy := true } = some σ5p := by
  have h := prep_immediate_spec O5 P0 { σ5 with busy := true } 1 (fun _ => sv0) 0 sv9
    rfl (by norm_num [P0]) rfl rfl rfl
  exact h

/-- Helper: the concrete stuck run qualifies: one-node tree, goal nine
meters away with free_radius one. -/
theorem qualifies5 : stuckQualifies P0 res5 sv9 sv0 := by
  refine ⟨Or.inl (by norm_num [res5, P0]), rfl, ?_⟩
  have h9 : norm2 (sv9.px - sv0.px) (sv9.py - sv0.py) = 9 := by
    rw [norm2, show (sv9.px - sv0.px) ^ 2 + (sv9.py - sv0.py) ^ 2 = (9 : ℝ) ^ 2 by
      norm_num [sv9, sv0]]
    exact Real.sqrt_sq (by norm_num)
  rw [h9]
  norm_num [P0]

/-- Witness for C5 (amended) at the concrete run: threshold one, one
qualifying clean update from a cleared counter leaves stuck false with the
counter at one; the latch needs a second one. -/
theorem tree_chain_stuck_amended_witness :
    (fun s => stuckStep 1 True s)^[1] (false, 0) = (false, 1) ∧
    (fun s => stuckStep 1 True s)^[2] (false, 0) = (true, 0) ∧
    (treeChain O5 P0 σ5).map (fun r => (r.1.stuck, r.1.stuck_count, r.2)) =
      some ((stuckStep P0.stuck_threshold
              (stuckQualifies P0 (O5.update Behavior.escape σ5p.next_seed
                σ5p.sample_space σ5p.goal_bias σ5p.guide σ5p.next_runtime)
                sv9 sv0)
              (σ5.stuck, σ5.stuck_count)).1,
            (stuckStep P0.stuck_threshold
              (stuckQualifies P0 (O5.update Behavior.escape σ5p.next_seed
                σ5p.sample_space σ5p.goal_bias σ5p.guide σ5p.next_runtime)
                sv9 sv0)
              (σ5.stuck, σ5.stuck_count)).2,
            some true) :=
  ⟨tree_chain_stuck_amended.2.1 1 1 le_rfl,
   tree_chain_stuck_amended.2.2.1 1,
   tree_chain_stuck_amended.2.2.2 O5 P0 σ5 σ5p Behavior.escape sv9 sv0
     rfl prep_eval5 rfl rfl rfl rfl⟩

/-- C5 counterexample: with stuck_threshold = 1, a single qualifying clean
update from a cleared counter (that is, stuck_threshold consecutive
qualifying updates) leaves stuck = false with the counter at 1; the claim
says the flag becomes true after stuck_threshold such updates. -/
theorem tree_chain_stuck_cex :
    P0.stuck_threshold = 1 ∧ σ5.stuck = false ∧ σ5.stuck_count = 0 ∧
    stuckQualifies P0 res5 sv9 sv0 ∧
    (treeChain O5 P0 σ5).map (fun r => (r.1.stuck, r.1.stuck_count, r.2)) =
      some (false, 1, some true) := by
  refine ⟨rfl, rfl, rfl, qualifies5, ?_⟩
  have h := tree_chain_clean_stuck_step O5 P0 σ5 σ5p Behavior.escape sv9 sv0
    rfl prep_eval5 rfl rfl rfl rfl
  rw [h]
  rw [show stuckStep P0.stuck_threshold
        (stuckQualifies P0 (O5.update Behavior.escape σ5p.next_seed
          σ5p.sample_space σ5p.goal_bias σ5p.guide σ5p.next_runtime) sv9 sv0)
        (σ5.stuck, σ5.stuck_count) = (false, 1) by
    rw [show O5.update Behavior.escape σ5p.next_seed σ5p.sample_space
          σ5p.goal_bias σ5p.guide σ5p.next_runtime = res5 from rfl]
    rw [stuckStep, if_pos qualifies5]
    rw [if_neg (by norm_num [σ5, σ0, P0])]
    simp [σ5, σ0]]

/-- C6 (code bug): in the escape branch with the goal nearer than
2 * free_radius, the source computes gs[:2] = vec + 2*free_radius*(vec/dist)
with vec = goal[:2] - seed[:2], dropping the seed base point: at seed
(10, 0), goal (10.5, 0) and free_radius 1 the guide comes out at (2.5, 0),
which does not lie on the seed-to-goal ray at all (every point of that ray
has first coordinate at least 10).  The returned bias 0 and sample space
escape.gen_ss(seed, goal) do match the claim. -/
theorem select_exploration_escape_bug :
    selectExploration O0 P0 σ6 =
      some (GBias.scalar 0, O0.escGenSS sv10 svG6, ⟨5 / 2, 0, 0, 0, 0, 0⟩) ∧
    ¬ onSeedGoalRay sv10 svG6 ⟨5 / 2, 0, 0, 0, 0, 0⟩ (2 * P0.free_radius) := by
  constructor
  · have hd : norm2 (svG6.px - sv10.px) (svG6.py - sv10.py) = 1 / 2 := by
      rw [norm2, show (svG6.px - sv10.px) ^ 2 + (svG6.py - sv10.py) ^ 2 =
            ((1 : ℝ) / 2) ^ 2 by norm_num [svG6, sv10]]
      exact Real.sqrt_sq (by norm_num)
    simp only [selectExploration, Option.bind_eq_bind']
    rw [if_pos (show σ6.behavior = some Behavior.escape from rfl)]
    rw [show σ6.goal = some svG6 from rfl, Option.some_bind']
    rw [show σ6.next_seed = some sv10 from rfl, Option.some_bind']
    rw [hd]
    rw [if_pos (show (1 : ℝ) / 2 < 2 * P0.free_radius by norm_num [P0])]
    simp only [Option.some.injEq, Prod.mk.injEq]
    refine ⟨trivial, trivial, ?_⟩
    rw [show (⟨5 / 2, 0, 0, 0, 0, 0⟩ : SVec) =
          ⟨5 / 2, 0, svG6.th, svG6.vx, svG6.vy, svG6.om⟩ by rfl]
    congr 1 <;> norm_num [svG6, sv10, P0]
  · rintro ⟨t, ht, hx, hy, hn⟩
    have hx' : (5 : ℝ) / 2 = 10 + t * (1 / 2) := by
      rw [show ((⟨5 / 2, 0, 0, 0, 0, 0⟩ : SVec)).px = (5 : ℝ) / 2 from rfl] at hx
      rw [show sv10.px = (10 : ℝ) from rfl, show svG6.px = (21 : ℝ) / 2 from rfl] at hx
      linarith [hx]
    linarith

/-- C2 (amended): move_cb rejects with codes odom / move_type / patience
for missing odometry, an unknown move type and the circle move
respectively.  The odom rejection happens before any mutation (only the
done flag toggles); the move_type and patience rejections however occur
after the supervisor has already been reset and the goal set to the
requested pose: the committed plan is cleared and the goal overwritten
(and for circle, move_type and the focus are also set), contradicting the
no-mutation reading of the claim. -/
theorem moveCb_reject_amended (O : Oracle) (P : Params) (σ : NodeState)
    (msg : MoveMsg) :
    (σ.state = none →
      moveCb O P σ msg = some (MoveRes.aborted ("odom"), { σ with done := true })) ∧
    (σ.state ≠ none →
      msg.move_type ∉ (["hold", "drive", "skid", "circle"] : List String) →
      moveCb O P σ msg =
        some (MoveRes.aborted ("move_type"),
          { set_goal (reset { σ with done := false }) (unpack_pose msg.goalPose) with
              done := true })) ∧
    (σ.state ≠ none → msg.move_type = "circle" →
      moveCb O P σ msg =
        some (MoveRes.aborted ("patience"),
          { set_goal (reset { σ with done := false }) (unpack_pose msg.goalPose) with
              move_type := some ("circle"), focus := some msg.focus,
              done := true })) := by
  refine ⟨?_, ?_, ?_⟩
  · intro h
    simp only [moveCb, h]
  · intro h1 h2
    cases hst : σ.state with
    | none => exact absurd hst h1
    | some st =>
      simp only [moveCb, hst]
      rw [if_neg h2]
  · intro h1 h2
    cases hst : σ.state with
    | none => exact absurd hst h1
    | some st =>
      simp [moveCb, hst, h2]

/-- Witness for C2 (amended): a state with odometry and an old plan
receives a request with the bogus move type fly. -/
theorem moveCb_reject_amended_witness :
    σ2c.state ≠ none ∧
    m2c.move_type ∉ (["hold", "drive", "skid", "circle"] : List String) ∧
    moveCb O0 P0 σ2c m2c =
      some (MoveRes.aborted ("move_type"),
        { set_goal (reset { σ2c with done := false }) (unpack_pose m2c.goalPose) with
            done := true }) :=
  ⟨by simp [σ2c, σ0], by decide,
   (moveCb_reject_amended O0 P0 σ2c m2c).2.1 (by simp [σ2c, σ0]) (by decide)⟩

/-- C2 counterexample: the rejected fly request comes back with code
move_type, but the supervisor's goal has been overwritten with the
request's goal pose (1, 2, 3) and is no longer the prior goal sv0: state
is mutated by a rejected call. -/
theorem moveCb_mutates_cex :
    (moveCb O0 P0 σ2c m2c).map (fun r => (r.1, r.2.goal)) =
      some (MoveRes.aborted ("move_type"), some (unpack_pose (1, 2, 3))) ∧
    σ2c.goal = some sv0 ∧ some (unpack_pose (1, 2, 3)) ≠ some sv0 := by
  refine ⟨?_, rfl, ?_⟩
  · simp [moveCb, σ2c, σ0, m2c, set_goal, reset, unpack_pose]
  · norm_num [unpack_pose, sv0, SVec.mk.injEq]

end LqrrtNode
